import Mathlib

/-!
# Verification of the kpp-parsing converter

Shallow embedding of `src/index.ts`, a batch converter that turns Krita
`.kpp` brush-preset files into JSON artifacts.  The dynamically typed
JavaScript values flowing through the program are modelled by `JsVal`;
the external collaborators (ExifReader, fast-xml-parser, the filesystem)
are modelled at their interfaces: the XML parsers appear as oracle
functions producing parsed trees, tag extraction as an optional tag value,
and file-write success as a boolean.  Every definition below is translated
from the source; doc comments cite the lines of `src/index.ts` it embeds.
-/

/-- JavaScript numbers as relevant to this program: finite values are kept
exactly as rationals; `NaN` and the two infinities are separate
constructors (`inf true` is negative infinity). -/
inductive JsNum where
  | rat : Rat → JsNum
  | nan : JsNum
  | inf : Bool → JsNum
deriving DecidableEq

/-- Dynamic JavaScript values as produced by fast-xml-parser (configured in
`src/index.ts` lines 28-36 with `parseAttributeValue`, so attribute values
may be strings, numbers or booleans) and as manipulated by the program.
`obj` keeps fields in insertion order.  JS `undefined` is modelled as
`Option.none` at every use site, never as a `JsVal`. -/
inductive JsVal where
  | str : String → JsVal
  | num : JsNum → JsVal
  | bool : Bool → JsVal
  | null : JsVal
  | obj : List (String × JsVal) → JsVal
  | arr : List JsVal → JsVal

/-- JS truthiness: `""`, `0`, `NaN`, `false` and `null` are falsy, every
object and array is truthy. -/
def JsVal.truthy : JsVal → Bool
  | .str s => !s.isEmpty
  | .num (.rat q) => if q = 0 then false else true
  | .num .nan => false
  | .num (.inf _) => true
  | .bool b => b
  | .null => false
  | .obj _ => true
  | .arr _ => true

/-- Recognises the JS `null` value. -/
def JsVal.isNull : JsVal → Bool
  | .null => true
  | _ => false

/-- Test for `Array.isArray`. -/
def JsVal.isArr : JsVal → Bool
  | .arr _ => true
  | _ => false

/-- First-match association lookup.  Objects built by the program have
unique keys, so first match equals JS property lookup; `none` models
`undefined`. -/
def assocLookup : List (String × JsVal) → String → Option JsVal
  | [], _ => none
  | (k', v) :: rest, k => if k' = k then some v else assocLookup rest k

/-- JS property read `v.k`: objects look the key up; any other receiver
yields `undefined` (the guarded uses in the source never read a property
of `null` or `undefined`, and optional chaining also yields `undefined`
there). -/
def getField : JsVal → String → Option JsVal
  | .obj kvs, k => assocLookup kvs k
  | _, _ => none

/-- JS property assignment `o[k] = v`: overwrite in place when the key
exists, else append (JS objects preserve insertion order). -/
def setKey : List (String × JsVal) → String → JsVal → List (String × JsVal)
  | [], k, v => [(k, v)]
  | (k', w) :: rest, k, v =>
    if k' = k then (k, v) :: rest else (k', w) :: setKey rest k v

/-- JS `a || b` where `a` may be `undefined` (`none`): yields `a` when
truthy, else `b`. -/
def orFalsy (o : Option JsVal) (d : JsVal) : JsVal :=
  match o with
  | some v => if v.truthy then v else d
  | none => d

/-- Truthiness of a possibly-undefined value, i.e. a JS `if (x)` guard. -/
def truthyOpt : Option JsVal → Bool
  | some v => v.truthy
  | none => false

/-- Keeps a possibly-undefined value only when truthy: `some` exactly when
a JS `if (x)` guard on it passes. -/
def truthyOptF : Option JsVal → Option JsVal
  | some v => if v.truthy then some v else none
  | none => none

/-- The `x !== null && x !== undefined` presence test of the source,
as a filter. -/
def nonNull : Option JsVal → Option JsVal
  | some v => if v.isNull then none else some v
  | none => none

/-- The `x !== null` presence test on a value that is never `undefined`. -/
def nonNullV (v : JsVal) : Option JsVal :=
  if v.isNull then none else some v

/-- A JS `if (x)` guard on a value that is never `undefined`. -/
def truthyV (v : JsVal) : Option JsVal :=
  if v.truthy then some v else none

/-- ECMAScript number-to-string.  Integers render exactly as JS does;
non-integral rationals are rendered as `num/den`, a deliberate model-level
divergence from IEEE shortest-round-trip float formatting (this coercion
is an external builtin, and no behaviour settled here depends on
formatting a non-integral number). -/
def numToString : JsNum → String
  | .rat q =>
    if q.den = 1 then toString q.num
    else toString q.num ++ "/" ++ toString q.den
  | .nan => "NaN"
  | .inf b => cond b "-Infinity" "Infinity"

mutual

/-- ECMAScript ToString coercion, used where the source lets JS coerce a
value to a string (property keys, `String(x)` inside `parseFloat`). -/
def jsToString : JsVal → String
  | .str s => s
  | .num n => numToString n
  | .bool b => cond b "true" "false"
  | .null => "null"
  | .obj _ => "[object Object]"
  | .arr vs => jsListToString vs
termination_by structural v => v

/-- Rendering of `Array.prototype.toString` = `join(",")`; inside a join, a `null`
element renders as the empty string. -/
def jsListToString : List JsVal → String
  | [] => ""
  | [.null] => ""
  | [v] => jsToString v
  | .null :: vs => "," ++ jsListToString vs
  | v :: vs => jsToString v ++ "," ++ jsListToString vs
termination_by structural l => l

end

/-- The whitespace characters skipped by JS `parseFloat`. -/
def jsWhitespace (c : Char) : Bool :=
  c = ' ' || c = '\t' || c = '\n' || c = '\r' || c = '\x0b' || c = '\x0c'

/-- Value of a digit string (most significant first). -/
def digitsVal (cs : List Char) : Nat :=
  cs.foldl (fun a c => 10 * a + (c.toNat - '0'.toNat)) 0

/-- Exponent part after the `e`/`E` marker: optional sign then digits; an
incomplete exponent is not consumed (JS takes the longest valid literal
and ignores the trailing garbage). -/
def expSigned : List Char → Int
  | '-' :: ds =>
    if (ds.takeWhile Char.isDigit).isEmpty then 0
    else -(digitsVal (ds.takeWhile Char.isDigit) : Int)
  | '+' :: ds =>
    if (ds.takeWhile Char.isDigit).isEmpty then 0
    else (digitsVal (ds.takeWhile Char.isDigit) : Int)
  | ds =>
    if (ds.takeWhile Char.isDigit).isEmpty then 0
    else (digitsVal (ds.takeWhile Char.isDigit) : Int)

/-- Exponent of a decimal literal, `0` when absent or incomplete. -/
def expValue : List Char → Int
  | 'e' :: rest => expSigned rest
  | 'E' :: rest => expSigned rest
  | _ => 0

/-- Model of the JS builtin `parseFloat` on strings: skip leading
whitespace, optional sign, then either `Infinity` or the longest decimal
literal (`digits`, `.digits`, optional exponent); when no digits can be
read the result is `NaN`.  Finite results are exact rationals, assembled
with `mkRat` so the whole function evaluates in the kernel. -/
def parseFloatStr (s : String) : JsNum :=
  let cs := s.data.dropWhile jsWhitespace
  let (neg, cs) :=
    match cs with
    | '-' :: r => (true, r)
    | '+' :: r => (false, r)
    | r => (false, r)
  if "Infinity".data.isPrefixOf cs then .inf neg
  else
    let ip := cs.takeWhile Char.isDigit
    let r1 := cs.dropWhile Char.isDigit
    let (fp, r2) :=
      match r1 with
      | '.' :: r => (r.takeWhile Char.isDigit, r.dropWhile Char.isDigit)
      | r => (([] : List Char), r)
    if ip.isEmpty && fp.isEmpty then .nan
    else
      let n : Nat := digitsVal ip * 10 ^ fp.length + digitsVal fp
      let e : Int := expValue r2
      let v : Rat :=
        if 0 ≤ e then mkRat (n * 10 ^ e.toNat : Nat) (10 ^ fp.length)
        else mkRat n (10 ^ fp.length * 10 ^ (-e).toNat)
      .rat (if neg then -v else v)

/-- JS `parseFloat(x)` on an arbitrary value: the argument is coerced to a
string first.  For a finite number the round trip through the shortest
float representation is the identity, so that case short-circuits. -/
def jsParseFloat : JsVal → JsNum
  | .str s => parseFloatStr s
  | .num n =>
    match n with
    | .rat q => .rat q
    | .nan => .nan
    | .inf b => .inf b
  | v => parseFloatStr (jsToString v)

/-! ## PresetDecoder: the main-loop preset transform (src/index.ts 252-272) -/

/-- Abbreviation for the flat maps the program builds (`parameters`,
`brushData`): JS objects used as dictionaries, insertion-ordered. -/
abbrev JsMap : Type := List (String × JsVal)

/-- Value of one `param` entry (line 269):
`param.value || param.text || param.cdata || ""`. -/
def paramValue (p : JsVal) : JsVal :=
  orFalsy (getField p "value")
    (orFalsy (getField p "text")
      (orFalsy (getField p "cdata") (.str "")))

/-- One iteration of the `for (const param of params)` loop (lines 266-271):
`if (param.name) parameters[param.name] = ...` — a falsy or absent `name`
skips the entry; the name is coerced to a property key. -/
def paramStep (acc : JsMap) (p : JsVal) : JsMap :=
  match truthyOptF (getField p "name") with
  | some n => setKey acc (jsToString n) (paramValue p)
  | none => acc

/-- The whole flattening loop over the param list (lines 266-271). -/
def buildParameters (ps : List JsVal) : JsMap :=
  ps.foldl paramStep []

/-- Coercion `Array.isArray(x) ? x : [x]` (lines 262-264): a single param entry is
coerced into a one-element sequence. -/
def coerceParams : JsVal → List JsVal
  | .arr xs => xs
  | v => [v]

/-- Guard `if (jsonObj.Preset?.param) { ... }` (lines 261-272): the parameter map
is built only when the param list is present and truthy, else stays
empty. -/
def presetParameters (preset : Option JsVal) : JsMap :=
  match truthyOptF (preset.bind (fun pr => getField pr "param")) with
  | some p => buildParameters (coerceParams p)
  | none => []

/-- The `transformedObj` record (lines 254-258). -/
structure TransformedObj where
  name : JsVal
  paintopid : JsVal
  parameters : JsMap

/-- Lines 254-272: `name` and `paintopid` default to the empty string via
`jsonObj.Preset?.name || ""`, and the param list is flattened. -/
def transformPreset (jsonObj : JsVal) : TransformedObj :=
  let preset := getField jsonObj "Preset"
  { name := orFalsy (preset.bind (fun pr => getField pr "name")) (.str "")
    paintopid :=
      orFalsy (preset.bind (fun pr => getField pr "paintopid")) (.str "")
    parameters := presetParameters preset }

/-! ## BrushDescriptorDecoder (src/index.ts 39-73) -/

/-- The `result.maskGenerator` record (lines 58-65): every field is
`brush.MaskGenerator.f || null`, so it is never `undefined` but a falsy
source value collapses to `null`. -/
structure MaskGen where
  type : JsVal
  diameter : JsVal
  ratio : JsVal
  hfade : JsVal
  vfade : JsVal
  spikes : JsVal

/-- The `result` record of `parseBrushDefinition` (lines 46-66). -/
structure BrushDef where
  type : JsVal
  spacing : JsVal
  angle : JsVal
  scale : JsVal
  randomness : JsVal
  density : JsVal
  filename : JsVal
  maskGenerator : Option MaskGen

/-- Embeds `parseBrushDefinition` (lines 39-73).  The call to
`xmlParser.parse` is an external collaborator, so this takes its outcome:
`.error` models a thrown parse exception, which the `catch` turns into
`null` (`none`), exactly like a parse result without a truthy `Brush`
root. -/
def parseBrushDefinition (parsed : Except String JsVal) : Option BrushDef :=
  match parsed with
  | .error _ => none
  | .ok p =>
    match truthyOptF (getField p "Brush") with
    | none => none
    | some brush =>
      some
        { type := orFalsy (getField brush "type") .null
          spacing := orFalsy (getField brush "spacing") .null
          angle := orFalsy (getField brush "angle") .null
          scale := orFalsy (getField brush "scale") .null
          randomness := orFalsy (getField brush "randomness") .null
          density := orFalsy (getField brush "density") .null
          filename := orFalsy (getField brush "filename") .null
          maskGenerator :=
            match truthyOptF (getField brush "MaskGenerator") with
            | some mg =>
              some
                { type := orFalsy (getField mg "type") .null
                  diameter := orFalsy (getField mg "diameter") .null
                  ratio := orFalsy (getField mg "ratio") .null
                  hfade := orFalsy (getField mg "hfade") .null
                  vfade := orFalsy (getField mg "vfade") .null
                  spikes := orFalsy (getField mg "spikes") .null }
            | none => none }

/-! ## ProjectionEngine: `extractBrushParameters` (src/index.ts 76-197) -/

/-- A guarded conditional assignment `if (cond(x)) brushData[k] = x`, the
shape of every projection step in `extractBrushParameters`: the option is
the filtered source value. -/
def setIfSome (m : JsMap) (k : String) (o : Option JsVal) : JsMap :=
  match o with
  | some v => setKey m k v
  | none => m

/-- Lines 106-138: the five MaskGenerator projections (`diameter → size`,
`ratio → roundness`, `hfade`, `vfade`, `spikes`), each guarded by
`!== null && !== undefined` (the fields are never `undefined`). -/
def applyMaskGen (mg : Option MaskGen) (m : JsMap) : JsMap :=
  match mg with
  | some g =>
    setIfSome
      (setIfSome
        (setIfSome
          (setIfSome (setIfSome m "size" (nonNullV g.diameter))
            "roundness" (nonNullV g.ratio))
          "hfade" (nonNullV g.hfade))
        "vfade" (nonNullV g.vfade))
      "spikes" (nonNullV g.spikes)
  | none => m

/-- Lines 84-138: the brush-descriptor projections in source order —
`spacing, angle, scale, randomness, density` under a `!== null` guard,
`filename, type` under a truthiness guard, then the MaskGenerator
block. -/
def applyBrushDef (bd : BrushDef) (m : JsMap) : JsMap :=
  applyMaskGen bd.maskGenerator
    (setIfSome
      (setIfSome
        (setIfSome
          (setIfSome
            (setIfSome
              (setIfSome (setIfSome m "spacing" (nonNullV bd.spacing))
                "angle" (nonNullV bd.angle))
              "scale" (nonNullV bd.scale))
            "randomness" (nonNullV bd.randomness))
          "density" (nonNullV bd.density))
        "filename" (truthyV bd.filename))
      "type" (truthyV bd.type))

/-- Lines 79-140: `if (parameters.brush_definition)` then parse and, when a
descriptor results, project it into the fresh `brushData` object. -/
def brushDefPart (parse : JsVal → Except String JsVal)
    (params : JsMap) : JsMap :=
  match truthyOptF (assocLookup params "brush_definition") with
  | some bd =>
    match parseBrushDefinition (parse bd) with
    | some brushDef => applyBrushDef brushDef []
    | none => []
  | none => []

/-- Lines 142-157: the dynamic properties `OpacityValue → opacity`,
`ScatterValue → scatter`, `FlowValue → flow`, each under
`!== null && !== undefined`. -/
def applyDynamics (params m : JsMap) : JsMap :=
  setIfSome
    (setIfSome (setIfSome m "opacity" (nonNull (assocLookup params "OpacityValue")))
      "scatter" (nonNull (assocLookup params "ScatterValue")))
    "flow" (nonNull (assocLookup params "FlowValue"))

/-- Lines 168-176 body: `if (parameters[k] && parameters[k].params)` then
take `params.curve` under `!== null && !== undefined`. -/
def sensorCurve (params : JsMap) (key : String) : Option JsVal :=
  match truthyOptF (assocLookup params key) with
  | some pv =>
    match truthyOptF (getField pv "params") with
    | some sp => nonNull (getField sp "curve")
    | none => none
  | none => none

/-- The `sensorMappings` table (lines 160-166), in `Object.entries`
order. -/
def sensorMappings : List (String × String) :=
  [("OpacitySensor", "pressureOpacity"),
   ("SizeSensor", "pressureSize"),
   ("RotationSensor", "pressureRotation"),
   ("ScatterSensor", "pressureScatter"),
   ("FlowSensor", "pressureFlow")]

/-- The sensor loop (lines 168-176). -/
def applySensors (params m : JsMap) : JsMap :=
  sensorMappings.foldl
    (fun acc kv => setIfSome acc kv.2 (sensorCurve params kv.1)) m

/-- Lines 179-194: the whole texture block is guarded by
`if (parameters["Texture/Pattern/Pattern"])`; inside, `Scale` passes
through and `Strength` is coerced with `parseFloat`. -/
def applyTexture (params m : JsMap) : JsMap :=
  if truthyOpt (assocLookup params "Texture/Pattern/Pattern") then
    setIfSome
      (setIfSome m "patternScale"
        (nonNull (assocLookup params "Texture/Pattern/Scale")))
      "patternStrength"
      ((nonNull (assocLookup params "Texture/Pattern/Strength")).map
        (fun v => .num (jsParseFloat v)))
  else m

/-- Embeds `extractBrushParameters` (lines 76-197): the four blocks run in source
order over the initially empty `brushData`. -/
def extractBrushParameters (parse : JsVal → Except String JsVal)
    (params : JsMap) : JsMap :=
  applyTexture params
    (applySensors params (applyDynamics params (brushDefPart parse params)))

/-! ## PatternExtractor (src/index.ts 200-211) and pattern step (294-309) -/

/-- Word characters, the `\w` class of the data-URI-stripping regex. -/
def isWordChar (c : Char) : Bool :=
  ('a' ≤ c && c ≤ 'z') || ('A' ≤ c && c ≤ 'Z') ||
    ('0' ≤ c && c ≤ '9') || c = '_'

/-- Matches a literal at the front of a character list, returning the
remainder on success. -/
def dropLit? : List Char → List Char → Option (List Char)
  | [], cs => some cs
  | _ :: _, [] => none
  | p :: ps, c :: cs => if c = p then dropLit? ps cs else none

/-- Line 203: `base64Data.replace(/^data:image\/\w+;base64,/, "")` — the
anchored match requires the literal `data:image/`, a nonempty run of word
characters, then `;base64,`; on a match the prefix is removed, otherwise
the string is unchanged.  (Only the greedy split of `\w+` can succeed
because `;` is not a word character, so `takeWhile` is exact.) -/
def stripDataUri (cs : List Char) : List Char :=
  match dropLit? "data:image/".data cs with
  | none => cs
  | some rest =>
    let sub := rest.takeWhile isWordChar
    if sub.isEmpty then cs
    else
      match dropLit? ";base64,".data (rest.dropWhile isWordChar) with
      | some tail => tail
      | none => cs

/-- Value of one base64 alphabet character. -/
def b64Val (c : Char) : Option Nat :=
  if 'A' ≤ c && c ≤ 'Z' then some (c.toNat - 'A'.toNat)
  else if 'a' ≤ c && c ≤ 'z' then some (c.toNat - 'a'.toNat + 26)
  else if '0' ≤ c && c ≤ '9' then some (c.toNat - '0'.toNat + 52)
  else if c = '+' then some 62
  else if c = '/' then some 63
  else none

/-- Regroup 6-bit values into bytes; a trailing group of two or three
values contributes one or two bytes. -/
def b64Group : List Nat → List Nat
  | a :: b :: c :: d :: rest =>
    (a * 4 + b / 16) :: ((b % 16) * 16 + c / 4) :: ((c % 4) * 64 + d) ::
      b64Group rest
  | [a, b] => [a * 4 + b / 16]
  | [a, b, c] => [a * 4 + b / 16, (b % 16) * 16 + c / 4]
  | _ => []

/-- Model of the external builtin `Buffer.from(s, "base64")` (line 204):
Node's decoder is lenient and total — characters outside the alphabet are
ignored, decoding stops at padding, and the leftover values are regrouped
into bytes.  It never throws. -/
def b64Decode (cs : List Char) : List Nat :=
  b64Group ((cs.takeWhile (fun c => c ≠ '=')).filterMap b64Val)

/-- Embeds `savePatternBitmap` (lines 200-211).  `writeOk` models the outcome of
the external `fs.writeFileSync`; base64 decoding itself is total, and a
non-string argument makes `.replace` throw, which the `catch` turns into
`false`.  Returns the written bytes on success so that success is
`Option.isSome`. -/
def savePatternBitmap (writeOk : Bool) (v : JsVal) : Option (List Nat) :=
  match v with
  | .str s =>
    let buffer := b64Decode (stripDataUri s.data)
    if writeOk then some buffer else none
  | _ => none

/-- The pattern step of the main loop (lines 294-309): guarded by
`if (transformedObj.parameters["Texture/Pattern/Pattern"])`; when the save
reports success, `brushData.patternFile` is set to
`` `${baseName}_pattern.png` ``. -/
def addPatternFile (writeOk : Bool) (baseName : String)
    (params brushData : JsMap) : JsMap :=
  match truthyOptF (assocLookup params "Texture/Pattern/Pattern") with
  | some v =>
    if (savePatternBitmap writeOk v).isSome then
      setKey brushData "patternFile" (.str (baseName ++ "_pattern.png"))
    else brushData
  | none => brushData

/-! ## The per-file pipeline (src/index.ts 235-339) -/

/-- The object written to `brushes/<base>_brush.json` (lines 316-327). -/
structure BrushJson where
  name : JsVal
  paintopid : JsVal
  brush : JsMap

/-- Outcome of processing one input file: `skipped` when no truthy
`preset` tag exists (lines 246-249, `continue`), `errored` when the
top-level XML parse throws (caught at lines 332-338, no outputs), and
`processed` carrying the three written artifacts — raw XML text, the
`transformedObj` JSON, and the brush JSON. -/
inductive FileResult where
  | skipped
  | errored (msg : String)
  | processed (xml : String) (json : TransformedObj) (brushJson : BrushJson)

/-- One iteration of the main loop (lines 235-339) on one file, with the
external collaborators at their interfaces: `parse` is
`xmlParser.parse` on the preset text, `parseBrush` the same parser as
invoked on the nested brush-definition value, `writeOk` the pattern-file
write outcome, and `presetTag` the `tags.preset.value` produced by
ExifReader (absent or empty means skip). -/
def processFile (parse : String → Except String JsVal)
    (parseBrush : JsVal → Except String JsVal)
    (writeOk : Bool) (baseName : String)
    (presetTag : Option String) : FileResult :=
  match presetTag with
  | none => .skipped
  | some v =>
    if v.isEmpty then .skipped
    else
      match parse v with
      | .error e => .errored e
      | .ok jsonObj =>
        let t := transformPreset jsonObj
        let brushData := extractBrushParameters parseBrush t.parameters
        let brushData := addPatternFile writeOk baseName t.parameters brushData
        .processed v t ⟨t.name, t.paintopid, brushData⟩

/-! ## Lookup lemmas for the map operations -/

/-- Reading a map after an assignment: the assigned key sees the new value,
every other key is untouched. -/
theorem lookup_setKey (m : JsMap) (k : String) (v : JsVal) (q : String) :
    assocLookup (setKey m k v) q = if k = q then some v else assocLookup m q := by
  induction m with
  | nil => simp [setKey, assocLookup]
  | cons hd tl ih =>
    obtain ⟨k', w⟩ := hd
    by_cases h : k' = k
    · subst h
      by_cases hq : k' = q <;> simp [setKey, assocLookup, hq]
    · by_cases hq : k' = q
      · subst hq
        have hk : ¬ k = k' := fun he => h he.symm
        simp [setKey, h, assocLookup, hk]
      · simp [setKey, h, assocLookup, hq, ih]

/-- Reading a map after a guarded conditional assignment. -/
theorem lookup_setIfSome (m : JsMap) (k : String) (o : Option JsVal)
    (q : String) :
    assocLookup (setIfSome m k o) q =
      if k = q then o.or (assocLookup m q) else assocLookup m q := by
  cases o with
  | none => simp [setIfSome, Option.or]
  | some v => simp [setIfSome, lookup_setKey, Option.or]

/-- What any key reads after the dynamic-property block (lines 142-157). -/
theorem lookup_applyDynamics (params m : JsMap) (q : String) :
    assocLookup (applyDynamics params m) q =
      if q = "opacity" then
        (nonNull (assocLookup params "OpacityValue")).or (assocLookup m q)
      else if q = "scatter" then
        (nonNull (assocLookup params "ScatterValue")).or (assocLookup m q)
      else if q = "flow" then
        (nonNull (assocLookup params "FlowValue")).or (assocLookup m q)
      else assocLookup m q := by
  unfold applyDynamics
  rw [lookup_setIfSome, lookup_setIfSome, lookup_setIfSome]
  by_cases h1 : q = "opacity" <;> by_cases h2 : q = "scatter" <;>
    by_cases h3 : q = "flow" <;> simp_all [eq_comm]

/-- What any key reads after the sensor loop (lines 159-176). -/
theorem lookup_applySensors (params m : JsMap) (q : String) :
    assocLookup (applySensors params m) q =
      if q = "pressureOpacity" then
        (sensorCurve params "OpacitySensor").or (assocLookup m q)
      else if q = "pressureSize" then
        (sensorCurve params "SizeSensor").or (assocLookup m q)
      else if q = "pressureRotation" then
        (sensorCurve params "RotationSensor").or (assocLookup m q)
      else if q = "pressureScatter" then
        (sensorCurve params "ScatterSensor").or (assocLookup m q)
      else if q = "pressureFlow" then
        (sensorCurve params "FlowSensor").or (assocLookup m q)
      else assocLookup m q := by
  unfold applySensors sensorMappings
  simp only [List.foldl_cons, List.foldl_nil]
  rw [lookup_setIfSome, lookup_setIfSome, lookup_setIfSome, lookup_setIfSome,
    lookup_setIfSome]
  by_cases h1 : q = "pressureOpacity" <;> by_cases h2 : q = "pressureSize" <;>
    by_cases h3 : q = "pressureRotation" <;>
    by_cases h4 : q = "pressureScatter" <;>
    by_cases h5 : q = "pressureFlow" <;> simp_all [eq_comm]

/-- What any key reads after the texture block (lines 179-194). -/
theorem lookup_applyTexture (params m : JsMap) (q : String) :
    assocLookup (applyTexture params m) q =
      if truthyOpt (assocLookup params "Texture/Pattern/Pattern") = true then
        if q = "patternScale" then
          (nonNull (assocLookup params "Texture/Pattern/Scale")).or
            (assocLookup m q)
        else if q = "patternStrength" then
          ((nonNull (assocLookup params "Texture/Pattern/Strength")).map
            (fun v => .num (jsParseFloat v))).or (assocLookup m q)
        else assocLookup m q
      else assocLookup m q := by
  by_cases hp : truthyOpt (assocLookup params "Texture/Pattern/Pattern") = true
  · simp only [applyTexture, hp, if_true]
    rw [lookup_setIfSome, lookup_setIfSome]
    by_cases h1 : q = "patternScale"
    · subst h1
      simp
    · by_cases h2 : q = "patternStrength"
      · subst h2
        simp
      · simp [Ne.symm h1, Ne.symm h2, h1, h2]
  · simp [applyTexture, hp]

/-- The MaskGenerator block (lines 106-138) writes only its five output
keys. -/
theorem lookup_applyMaskGen_ne (mg : Option MaskGen) (m : JsMap) (q : String)
    (h : ¬ q ∈ (["size", "roundness", "hfade", "vfade", "spikes"] :
      List String)) :
    assocLookup (applyMaskGen mg m) q = assocLookup m q := by
  simp only [List.mem_cons, List.not_mem_nil, or_false, not_or] at h
  obtain ⟨h1, h2, h3, h4, h5⟩ := h
  cases mg with
  | none => rfl
  | some g =>
    unfold applyMaskGen
    rw [lookup_setIfSome, lookup_setIfSome, lookup_setIfSome, lookup_setIfSome,
      lookup_setIfSome]
    simp [Ne.symm h1, Ne.symm h2, Ne.symm h3, Ne.symm h4, Ne.symm h5]

/-- The brush-descriptor block (lines 84-138) writes only its twelve
output keys. -/
theorem lookup_applyBrushDef_ne (bd : BrushDef) (m : JsMap) (q : String)
    (h : ¬ q ∈ (["spacing", "angle", "scale", "randomness", "density",
      "filename", "type", "size", "roundness", "hfade", "vfade", "spikes"] :
      List String)) :
    assocLookup (applyBrushDef bd m) q = assocLookup m q := by
  have hmask : ¬ q ∈ (["size", "roundness", "hfade", "vfade", "spikes"] :
      List String) := by simp_all
  simp only [List.mem_cons, List.not_mem_nil, or_false, not_or] at h
  obtain ⟨h1, h2, h3, h4, h5, h6, h7, _⟩ := h
  unfold applyBrushDef
  rw [lookup_applyMaskGen_ne _ _ _ hmask]
  rw [lookup_setIfSome, lookup_setIfSome, lookup_setIfSome, lookup_setIfSome,
    lookup_setIfSome, lookup_setIfSome, lookup_setIfSome]
  simp [Ne.symm h1, Ne.symm h2, Ne.symm h3, Ne.symm h4, Ne.symm h5,
    Ne.symm h6, Ne.symm h7]

/-- Keys outside the twelve shape keys are never written by the
brush-definition part of the projection (lines 79-140). -/
theorem lookup_brushDefPart_ne (parse : JsVal → Except String JsVal)
    (params : JsMap) (q : String)
    (h : ¬ q ∈ (["spacing", "angle", "scale", "randomness", "density",
      "filename", "type", "size", "roundness", "hfade", "vfade", "spikes"] :
      List String)) :
    assocLookup (brushDefPart parse params) q = none := by
  unfold brushDefPart
  split
  · split
    · rw [lookup_applyBrushDef_ne _ _ _ h]; rfl
    · rfl
  · rfl

/-! ## Last-write-wins characterisation of the parameter flattening -/

/-- The key contributed by one param entry: present exactly when the
`name` field passes the truthiness guard of line 267, already coerced to
a property key. -/
def entryKey (p : JsVal) : Option String :=
  (truthyOptF (getField p "name")).map jsToString

/-- The value-priority rule in the words of the amended spec: the first
truthy of the `value`, `text`, `cdata` fields wins, else the empty
string. -/
def specParamValue (p : JsVal) : JsVal :=
  match truthyOptF (getField p "value") with
  | some v => v
  | none =>
    match truthyOptF (getField p "text") with
    | some v => v
    | none =>
      match truthyOptF (getField p "cdata") with
      | some v => v
      | none => .str ""

/-- A JS `||` step keeps its left operand exactly when truthy. -/
theorem orFalsy_eq_truthyOptF (o : Option JsVal) (d : JsVal) :
    orFalsy o d = match truthyOptF o with | some v => v | none => d := by
  cases o with
  | none => rfl
  | some v =>
    unfold orFalsy truthyOptF
    cases hv : v.truthy <;> simp [hv]

/-- The `||` chain of line 269 realises the first-truthy rule. -/
theorem paramValue_eq_spec (p : JsVal) : paramValue p = specParamValue p := by
  unfold paramValue specParamValue
  rw [orFalsy_eq_truthyOptF, orFalsy_eq_truthyOptF, orFalsy_eq_truthyOptF]

/-- C1 (amended).  For every preset param list, the resulting ParameterMap
maps each parameter name to the value derived from the last entry in the
list bearing that name (after key coercion), and that entry's value is
the first TRUTHY of: its explicit value field, its text field, its CDATA
field, else the empty string.  (The claim's "first non-absent" does not
hold: the source uses the JS `||` chain, which also skips present-but-
falsy fields — see the counterexample.) -/
theorem c1_last_truthy_wins (ps : List JsVal) (k : String) :
    assocLookup (buildParameters ps) k =
      ((ps.filter fun p => entryKey p == some k).getLast?).map specParamValue := by
  unfold buildParameters
  induction ps using List.reverseRecOn with
  | nil => rfl
  | append_singleton xs x ih =>
    rw [List.foldl_append, List.filter_append, List.foldl_cons, List.foldl_nil]
    cases hx : truthyOptF (getField x "name") with
    | none =>
      have hek : entryKey x = none := by simp [entryKey, hx]
      have hstep : paramStep (List.foldl paramStep [] xs) x =
          List.foldl paramStep [] xs := by
        unfold paramStep; rw [hx]
      rw [hstep, ih]
      simp [List.filter_cons, hek]
    | some n =>
      have hek : entryKey x = some (jsToString n) := by simp [entryKey, hx]
      have hstep : paramStep (List.foldl paramStep [] xs) x =
          setKey (List.foldl paramStep [] xs) (jsToString n) (paramValue x) := by
        unfold paramStep; rw [hx]
      rw [hstep, lookup_setKey]
      by_cases hk : jsToString n = k
      · subst hk
        simp [List.filter_cons, hek, List.getLast?_concat, paramValue_eq_spec]
      · rw [if_neg hk, ih]
        simp [List.filter_cons, hek, hk]

/-- C1 fails as literally stated: in the entry
`{name: "x", value: 0, text: "t"}` the `value` field is present (the
number `0`), so under "first non-absent wins" the map would hold `0`;
the code's `||` chain skips the falsy `0` and stores `"t"` instead. -/
theorem c1_value_priority_counterexample :
    assocLookup (buildParameters
        [.obj [("name", .str "x"), ("value", .num (.rat 0)),
          ("text", .str "t")]]) "x" = some (.str "t") ∧
      JsVal.str "t" ≠ JsVal.num (.rat 0) := by
  constructor
  · rfl
  · simp

/-- C10.  A param entry whose `name` field is present but falsy (the empty
string, the number 0, or `false`) is skipped exactly as if the field were
absent: the loop step leaves the map unchanged (so it contributes no key
and raises no error), wherever the entry sits in the list. -/
theorem c10_falsy_name_skipped (p n : JsVal) (xs ys : List JsVal)
    (hname : getField p "name" = some n) (hfalsy : n.truthy = false) :
    (∀ acc, paramStep acc p = acc) ∧
      buildParameters (xs ++ p :: ys) = buildParameters (xs ++ ys) := by
  have hstep : ∀ acc, paramStep acc p = acc := by
    intro acc
    unfold paramStep
    rw [hname]
    simp [truthyOptF, hfalsy]
  refine ⟨hstep, ?_⟩
  unfold buildParameters
  rw [List.foldl_append, List.foldl_append, List.foldl_cons, hstep]

/-- Witness for C10 at a concrete falsy-named entry (`name` parsed as the
number 0). -/
theorem c10_falsy_name_skipped_witness :
    paramStep [("a", JsVal.str "b")]
        (.obj [("name", .num (.rat 0)), ("value", .str "v")]) =
      [("a", JsVal.str "b")] ∧
    buildParameters
        [.obj [("name", .num (.rat 0)), ("value", .str "v")],
         .obj [("name", .str "k"), ("value", .str "w")]] =
      buildParameters [.obj [("name", .str "k"), ("value", .str "w")]] := by
  have h := c10_falsy_name_skipped
    (.obj [("name", .num (.rat 0)), ("value", .str "v")]) (.num (.rat 0))
    [] [.obj [("name", .str "k"), ("value", .str "w")]] rfl rfl
  exact ⟨h.1 _, h.2⟩

/-! ## Single-vs-sequence coercion (C9) and helpers -/

/-- A non-array value is wrapped into a one-element sequence. -/
theorem coerceParams_not_arr (v : JsVal) (h : v.isArr = false) :
    coerceParams v = [v] := by
  cases v <;> simp_all [JsVal.isArr, coerceParams]

/-- A falsy non-array value carries no fields, so the flattening step
skips it. -/
theorem paramStep_falsy_scalar (v : JsVal) (hA : v.isArr = false)
    (hT : v.truthy = false) :
    paramStep [] v = [] := by
  cases v <;>
    simp_all [JsVal.isArr, JsVal.truthy, paramStep, getField, truthyOptF]

/-- C9.  Decoding a preset whose parsed `param` entry is a single
(non-array) value yields exactly the same result as decoding the preset
with that entry wrapped in a one-element sequence: line 262's
`Array.isArray` coercion normalises before iteration. -/
theorem c9_single_param_coerced (fields : List (String × JsVal)) (v : JsVal)
    (hv : v.isArr = false) :
    transformPreset (.obj [("Preset", .obj (("param", v) :: fields))]) =
      transformPreset (.obj [("Preset", .obj (("param", .arr [v]) :: fields))]) := by
  have hg1 : getField (JsVal.obj [("Preset", .obj (("param", v) :: fields))])
      "Preset" = some (.obj (("param", v) :: fields)) := by
    simp [getField, assocLookup]
  have hg2 : getField (JsVal.obj [("Preset", .obj (("param", .arr [v]) :: fields))])
      "Preset" = some (.obj (("param", .arr [v]) :: fields)) := by
    simp [getField, assocLookup]
  have harr : (JsVal.arr [v]).truthy = true := rfl
  have hparams :
      presetParameters (some (.obj (("param", v) :: fields))) =
        presetParameters (some (.obj (("param", .arr [v]) :: fields))) := by
    unfold presetParameters
    simp only [Option.some_bind, getField]
    have harr2 : coerceParams (JsVal.arr [v]) = [v] := rfl
    by_cases ht : v.truthy = true
    · simp [assocLookup, truthyOptF, ht, harr, harr2,
        coerceParams_not_arr v hv]
    · have hf : v.truthy = false := by simpa using ht
      simp [assocLookup, truthyOptF, hf, harr, harr2,
        buildParameters, paramStep_falsy_scalar v hv hf]
  unfold transformPreset
  rw [hg1, hg2]
  dsimp only
  rw [hparams]
  simp [getField, assocLookup]

/-- Witness for C9 at a concrete single param entry. -/
theorem c9_single_param_coerced_witness :
    transformPreset (.obj [("Preset", .obj [("param",
        .obj [("name", .str "a"), ("value", .num (.rat 3))])])]) =
      transformPreset (.obj [("Preset", .obj [("param",
        .arr [.obj [("name", .str "a"), ("value", .num (.rat 3))]])])]) :=
  c9_single_param_coerced []
    (.obj [("name", .str "a"), ("value", .num (.rat 3))]) rfl

/-! ## Zero-valued descriptor fields (C2) -/

/-- C2: evaluation at the failing input.  The brush markup
`<Brush spacing="0" type="auto"/>` parses (under the configured attribute
parsing) to a tree whose `Brush.spacing` is the number 0 — present in the
source — yet the descriptor collapses it to the `null` sentinel (the
`|| null` of line 48) and the projection then omits `spacing` entirely
(line 84's `!== null` check), while the truthy `type` field from the same
markup is carried through.  Presence with value zero is therefore not
distinguished from absence, contradicting the claim. -/
theorem c2_zero_field_dropped_eval :
    parseBrushDefinition (.ok (.obj [("Brush",
        .obj [("spacing", .num (.rat 0)), ("type", .str "auto")])])) =
      some ⟨.str "auto", .null, .null, .null, .null, .null, .null, none⟩ ∧
    extractBrushParameters
        (fun _ => .ok (.obj [("Brush",
          .obj [("spacing", .num (.rat 0)), ("type", .str "auto")])]))
        [("brush_definition", .str "<Brush spacing=\x220\x22 type=\x22auto\x22/>")] =
      [("type", .str "auto")] := by
  constructor <;> rfl

/-! ## No abort on missing root or param list (C3) -/

/-- C3 is false as stated: metadata whose markup parses to a tree without
the root `Preset` element is not aborted — the file is fully processed
and a `{name, paintopid, parameters}` output is produced, with
empty-string defaults and an empty parameter map. -/
theorem c3_missing_root_still_processed :
    processFile (fun _ => .ok (.obj [])) (fun _ => .error "unused") true "foo"
        (some "<not-a-preset/>") =
      .processed "<not-a-preset/>" ⟨.str "", .str "", []⟩
        ⟨.str "", .str "", []⟩ := by
  rfl

/-- C3 (amended).  When the preset tag is present and nonempty and the
markup parses, a tree lacking the `param` list under the root (in
particular one lacking the root `Preset` element altogether) does NOT
abort processing: the file still produces its outputs, with `name` and
`paintopid` defaulted through `|| ""` and an empty parameter map (hence
an empty brush object).  A file yields no outputs only when the preset
tag is absent or empty, or the top-level parse throws. -/
theorem c3_missing_param_no_abort (parse : String → Except String JsVal)
    (parseBrush : JsVal → Except String JsVal) (writeOk : Bool)
    (baseName v : String) (j : JsVal)
    (hv : v.isEmpty = false) (hp : parse v = .ok j)
    (hparam : (getField j "Preset").bind (fun pr => getField pr "param") =
      none) :
    processFile parse parseBrush writeOk baseName (some v) =
      .processed v
        ⟨orFalsy ((getField j "Preset").bind (fun pr => getField pr "name"))
           (.str ""),
         orFalsy ((getField j "Preset").bind (fun pr => getField pr "paintopid"))
           (.str ""),
         []⟩
        ⟨orFalsy ((getField j "Preset").bind (fun pr => getField pr "name"))
           (.str ""),
         orFalsy ((getField j "Preset").bind (fun pr => getField pr "paintopid"))
           (.str ""),
         []⟩ := by
  have hparams : presetParameters (getField j "Preset") = [] := by
    unfold presetParameters
    rw [hparam]
    rfl
  have hext : extractBrushParameters parseBrush ([] : JsMap) = [] := rfl
  have hpat : addPatternFile writeOk baseName ([] : JsMap) ([] : JsMap) = [] :=
    rfl
  unfold processFile transformPreset
  simp [hv, hp, hparams, hext, hpat]

/-- Witness for the amended C3 at a concrete tree whose `Preset` entry is
a scalar (so it has no `param` list). -/
theorem c3_missing_param_no_abort_witness :
    processFile (fun _ => .ok (.obj [("Preset", .str "odd")]))
        (fun _ => .error "unused") false "bar" (some "<p/>") =
      .processed "<p/>" ⟨.str "", .str "", []⟩ ⟨.str "", .str "", []⟩ := by
  have h := c3_missing_param_no_abort (fun _ => .ok (.obj [("Preset", .str "odd")]))
    (fun _ => .error "unused") false "bar" "<p/>" (.obj [("Preset", .str "odd")])
    rfl rfl rfl
  exact h

/-! ## Projection without a brush descriptor (C5), texture guard (C4, C8) -/

/-- The brush-definition part contributes nothing when the parameter is
absent or falsy, or when its value yields no descriptor. -/
theorem brushDefPart_eq_nil (parseBrush : JsVal → Except String JsVal)
    (params : JsMap)
    (h : ∀ bd ∈ truthyOptF (assocLookup params "brush_definition"),
      parseBrushDefinition (parseBrush bd) = none) :
    brushDefPart parseBrush params = [] := by
  unfold brushDefPart
  cases ho : truthyOptF (assocLookup params "brush_definition") with
  | none => rfl
  | some bd =>
    have hb : (match parseBrushDefinition (parseBrush bd) with
        | some brushDef => applyBrushDef brushDef []
        | none => ([] : JsMap)) = [] := by
      rw [h bd (Option.mem_def.mpr ho)]
    exact hb

/-- C5.  If the `brush_definition` parameter is absent (or falsy), or its
value fails to yield a descriptor (a caught parse exception, or a parse
result without a truthy `Brush` root), the brush output contains none of
the twelve shape fields, while every dynamic property present in the
ParameterMap — opacity, scatter, flow, and the five sensor curves — is
still carried through unchanged. -/
theorem c5_no_shape_fields_dynamics_survive
    (parseBrush : JsVal → Except String JsVal) (params : JsMap)
    (h : ∀ bd ∈ truthyOptF (assocLookup params "brush_definition"),
      parseBrushDefinition (parseBrush bd) = none) :
    (∀ q ∈ (["spacing", "angle", "scale", "randomness", "density",
        "filename", "type", "size", "roundness", "hfade", "vfade",
        "spikes"] : List String),
      assocLookup (extractBrushParameters parseBrush params) q = none) ∧
    assocLookup (extractBrushParameters parseBrush params) "opacity" =
      nonNull (assocLookup params "OpacityValue") ∧
    assocLookup (extractBrushParameters parseBrush params) "scatter" =
      nonNull (assocLookup params "ScatterValue") ∧
    assocLookup (extractBrushParameters parseBrush params) "flow" =
      nonNull (assocLookup params "FlowValue") ∧
    assocLookup (extractBrushParameters parseBrush params) "pressureOpacity" =
      sensorCurve params "OpacitySensor" ∧
    assocLookup (extractBrushParameters parseBrush params) "pressureSize" =
      sensorCurve params "SizeSensor" ∧
    assocLookup (extractBrushParameters parseBrush params) "pressureRotation" =
      sensorCurve params "RotationSensor" ∧
    assocLookup (extractBrushParameters parseBrush params) "pressureScatter" =
      sensorCurve params "ScatterSensor" ∧
    assocLookup (extractBrushParameters parseBrush params) "pressureFlow" =
      sensorCurve params "FlowSensor" := by
  have hbp := brushDefPart_eq_nil parseBrush params h
  unfold extractBrushParameters
  rw [hbp]
  refine ⟨?_, ?_, ?_, ?_, ?_, ?_, ?_, ?_, ?_⟩
  · intro q hq
    fin_cases hq <;>
      simp [lookup_applyTexture, lookup_applySensors, lookup_applyDynamics,
        assocLookup]
  all_goals
    simp [lookup_applyTexture, lookup_applySensors, lookup_applyDynamics,
      assocLookup]

/-- Witness for C5: an unparsable `brush_definition` plus a present
opacity. -/
theorem c5_no_shape_fields_dynamics_survive_witness :
    assocLookup (extractBrushParameters (fun _ => .error "bad xml")
        [("OpacityValue", .num (.rat 1)), ("brush_definition", .str "garbage")])
        "spacing" = none ∧
    assocLookup (extractBrushParameters (fun _ => .error "bad xml")
        [("OpacityValue", .num (.rat 1)), ("brush_definition", .str "garbage")])
        "opacity" = some (.num (.rat 1)) := by
  have h := c5_no_shape_fields_dynamics_survive (fun _ => .error "bad xml")
    [("OpacityValue", .num (.rat 1)), ("brush_definition", .str "garbage")]
    (by intro bd _; rfl)
  exact ⟨h.1 "spacing" (by simp), h.2.1.trans rfl⟩

/-- C4 (amended).  The texture projections are emitted only under the
guard of line 179: when `Texture/Pattern/Pattern` is itself present and
truthy, `patternScale` carries a present (non-null)
`Texture/Pattern/Scale` verbatim and `patternStrength` a present
`Texture/Pattern/Strength` through `parseFloat`; when the guard fails,
neither key is emitted no matter what the source fields hold. -/
theorem c4_pattern_guarded_projection
    (parseBrush : JsVal → Except String JsVal) (params : JsMap) :
    assocLookup (extractBrushParameters parseBrush params) "patternScale" =
      (if truthyOpt (assocLookup params "Texture/Pattern/Pattern") = true then
        nonNull (assocLookup params "Texture/Pattern/Scale")
      else none) ∧
    assocLookup (extractBrushParameters parseBrush params) "patternStrength" =
      (if truthyOpt (assocLookup params "Texture/Pattern/Pattern") = true then
        (nonNull (assocLookup params "Texture/Pattern/Strength")).map
          (fun v => .num (jsParseFloat v))
      else none) := by
  have h1 : assocLookup (brushDefPart parseBrush params) "patternScale" =
      none := lookup_brushDefPart_ne _ _ _ (by simp)
  have h2 : assocLookup (brushDefPart parseBrush params) "patternStrength" =
      none := lookup_brushDefPart_ne _ _ _ (by simp)
  unfold extractBrushParameters
  constructor <;>
    simp [lookup_applyTexture, lookup_applySensors, lookup_applyDynamics,
      h1, h2]

/-- C4 is false as stated: `Texture/Pattern/Scale` present (non-absent,
value 2) but no `Texture/Pattern/Pattern` emits no `patternScale` key —
emission does not depend only on the presence of the source field
itself. -/
theorem c4_scale_without_pattern_counterexample :
    assocLookup (extractBrushParameters (fun _ => .error "unused")
        [("Texture/Pattern/Scale", .num (.rat 2))]) "patternScale" = none ∧
    nonNull (assocLookup [("Texture/Pattern/Scale", JsVal.num (.rat 2))]
        "Texture/Pattern/Scale") = some (.num (.rat 2)) := by
  constructor <;> rfl

/-- C8 (amended).  When `Texture/Pattern/Pattern` is present and truthy,
a `Texture/Pattern/Strength` holding a string from which `parseFloat`
can read no number is still emitted: the brush output maps
`patternStrength` to the not-a-number value — coerced, not silently
dropped. -/
theorem c8_nonnumeric_strength_nan
    (parseBrush : JsVal → Except String JsVal) (params : JsMap) (s : String)
    (hguard : truthyOpt (assocLookup params "Texture/Pattern/Pattern") = true)
    (hstr : assocLookup params "Texture/Pattern/Strength" = some (.str s))
    (hnan : parseFloatStr s = .nan) :
    assocLookup (extractBrushParameters parseBrush params) "patternStrength" =
      some (.num .nan) := by
  have h2 : assocLookup (brushDefPart parseBrush params) "patternStrength" =
      none := lookup_brushDefPart_ne _ _ _ (by simp)
  unfold extractBrushParameters
  simp [lookup_applyTexture, lookup_applySensors, lookup_applyDynamics,
    hguard, hstr, h2, nonNull, JsVal.isNull, jsParseFloat, hnan]

/-- Witness for the amended C8 at the documented `"abc"` edge case. -/
theorem c8_nonnumeric_strength_nan_witness :
    assocLookup (extractBrushParameters (fun _ => .error "unused")
        [("Texture/Pattern/Pattern", .str "p"),
         ("Texture/Pattern/Strength", .str "abc")]) "patternStrength" =
      some (.num .nan) :=
  c8_nonnumeric_strength_nan (fun _ => .error "unused")
    [("Texture/Pattern/Pattern", .str "p"),
     ("Texture/Pattern/Strength", .str "abc")] "abc" rfl rfl rfl

/-- C8 is false as stated: `Texture/Pattern/Strength` present with the
non-numeric value `"abc"` but no `Texture/Pattern/Pattern` produces no
`patternStrength` key at all, rather than a not-a-number value. -/
theorem c8_strength_without_pattern_counterexample :
    assocLookup (extractBrushParameters (fun _ => .error "unused")
        [("Texture/Pattern/Strength", .str "abc")]) "patternStrength" =
      none := by
  rfl

/-! ## Pattern file key (C6) -/

/-- The projection itself never writes `patternFile`; only the pattern
step of the main loop (lines 294-309) does. -/
theorem lookup_extract_patternFile (parseBrush : JsVal → Except String JsVal)
    (params : JsMap) :
    assocLookup (extractBrushParameters parseBrush params) "patternFile" =
      none := by
  have h := lookup_brushDefPart_ne parseBrush params "patternFile" (by simp)
  unfold extractBrushParameters
  simp [lookup_applyTexture, lookup_applySensors, lookup_applyDynamics, h]

/-- C6.  For every processed file, the `patternFile` key is present in
the brush output iff the pattern step succeeded — a present, truthy
`Texture/Pattern/Pattern` parameter whose decode-and-save reported
success — and when present its value is `<base>_pattern.png`. -/
theorem c6_patternFile_iff_saved (parse : String → Except String JsVal)
    (parseBrush : JsVal → Except String JsVal) (writeOk : Bool)
    (baseName : String) (tag : Option String) (xml : String)
    (json : TransformedObj) (bj : BrushJson)
    (h : processFile parse parseBrush writeOk baseName tag =
      .processed xml json bj) :
    assocLookup bj.brush "patternFile" =
      match truthyOptF (assocLookup json.parameters
        "Texture/Pattern/Pattern") with
      | some v =>
        if (savePatternBitmap writeOk v).isSome then
          some (.str (baseName ++ "_pattern.png"))
        else none
      | none => none := by
  cases tag with
  | none => exact absurd h (by simp [processFile])
  | some v =>
    unfold processFile at h
    dsimp only at h
    by_cases hv : v.isEmpty = true
    · rw [if_pos hv] at h
      exact absurd h (by simp)
    · rw [if_neg hv] at h
      cases hp : parse v with
      | error e =>
        rw [hp] at h
        exact absurd h (by simp)
      | ok j =>
        rw [hp] at h
        dsimp only at h
        injection h with h1 h2 h3
        subst h2
        subst h3
        dsimp only
        unfold addPatternFile
        cases hP : truthyOptF (assocLookup (transformPreset j).parameters
          "Texture/Pattern/Pattern") with
        | none => simp [lookup_extract_patternFile]
        | some w =>
          dsimp only
          by_cases hs : (savePatternBitmap writeOk w).isSome = true
          · rw [if_pos hs, lookup_setKey]
            simp [hs]
          · rw [if_neg hs]
            simp [hs, lookup_extract_patternFile]

/-- Witness for C6 on a concrete preset carrying a pattern payload whose
save succeeds. -/
theorem c6_patternFile_iff_saved_witness :
    assocLookup (BrushJson.brush ⟨.str "", .str "",
        [("patternFile", JsVal.str "foo_pattern.png")]⟩) "patternFile" =
      some (.str "foo_pattern.png") := by
  have h := c6_patternFile_iff_saved
    (fun _ => .ok (.obj [("Preset", .obj [("param",
      .obj [("name", .str "Texture/Pattern/Pattern"),
        ("value", .str "QUJD")])])]))
    (fun _ => .error "unused") true "foo" (some "tag") "tag"
    ⟨.str "", .str "", [("Texture/Pattern/Pattern", .str "QUJD")]⟩
    ⟨.str "", .str "", [("patternFile", JsVal.str "foo_pattern.png")]⟩
    rfl
  exact h.trans rfl

/-! ## Data-URI stripping (C7) -/

/-- Matching a literal against itself prepended to anything succeeds and
returns the remainder. -/
theorem dropLit?_self_append (pre rest : List Char) :
    dropLit? pre (pre ++ rest) = some rest := by
  induction pre with
  | nil => rfl
  | cons c cs ih => simp [dropLit?, ih]

/-- A block wholly satisfying the predicate is absorbed by takeWhile. -/
theorem takeWhile_append_all (p : Char → Bool) (l l' : List Char)
    (h : ∀ c ∈ l, p c = true) :
    (l ++ l').takeWhile p = l ++ l'.takeWhile p := by
  induction l with
  | nil => rfl
  | cons c cs ih =>
    have hc : p c = true := h c (by simp)
    simp [List.takeWhile_cons, hc, ih (fun d hd => h d (by simp [hd]))]

/-- A block wholly satisfying the predicate is skipped by dropWhile. -/
theorem dropWhile_append_all (p : Char → Bool) (l l' : List Char)
    (h : ∀ c ∈ l, p c = true) :
    (l ++ l').dropWhile p = l'.dropWhile p := by
  induction l with
  | nil => rfl
  | cons c cs ih =>
    have hc : p c = true := h c (by simp)
    simp [List.dropWhile_cons, hc, ih (fun d hd => h d (by simp [hd]))]

/-- Stripping a data-URI header (with a nonempty word-character subtype,
which is what the regex's permissive `\w+` matches) from a prefixed
payload recovers exactly the payload. -/
theorem stripDataUri_header (sub b : List Char) (hne : sub ≠ [])
    (hw : ∀ c ∈ sub, isWordChar c = true) :
    stripDataUri ("data:image/".data ++ (sub ++ (";base64,".data ++ b))) =
      b := by
  have hcons : (";base64,".data ++ b) = ';' :: ("base64,".data ++ b) := rfl
  have hsemi : isWordChar ';' = false := rfl
  have ht : (";base64,".data ++ b).takeWhile isWordChar = [] := by
    rw [hcons, List.takeWhile_cons, hsemi]
    rfl
  have hd : (";base64,".data ++ b).dropWhile isWordChar =
      ";base64,".data ++ b := by
    rw [hcons, List.dropWhile_cons, hsemi]
    rfl
  have hie : (sub ++ (";base64,".data ++ b)).takeWhile isWordChar = sub := by
    rw [takeWhile_append_all _ _ _ hw, ht, List.append_nil]
  have hie2 : ((sub ++ (";base64,".data ++ b)).takeWhile isWordChar).isEmpty =
      false := by
    rw [hie]
    cases sub with
    | nil => exact absurd rfl hne
    | cons c cs => rfl
  unfold stripDataUri
  rw [dropLit?_self_append]
  dsimp only
  rw [hie2, dropWhile_append_all _ _ _ hw, hd, dropLit?_self_append]
  rfl

/-- C7.  For every base64 payload and every data-URI header
`data:image/<subtype>;base64,` whose subtype token is a nonempty run of
word characters (the permissive `\w+` of the stripping regex), decoding
the prefixed payload yields the same bytes as decoding the bare
payload. -/
theorem c7_data_uri_strip_decode (sub b : List Char) (hne : sub ≠ [])
    (hw : ∀ c ∈ sub, isWordChar c = true) :
    b64Decode (stripDataUri
        ("data:image/".data ++ (sub ++ (";base64,".data ++ b)))) =
      b64Decode b := by
  rw [stripDataUri_header sub b hne hw]

/-- Witness for C7 with the `png` subtype and a small payload. -/
theorem c7_data_uri_strip_decode_witness :
    b64Decode (stripDataUri ("data:image/".data ++
        ("png".data ++ (";base64,".data ++ "QUJD".data)))) =
      b64Decode "QUJD".data :=
  c7_data_uri_strip_decode "png".data "QUJD".data (by decide) (by decide)
